import Mathlib

/-!
Verification of the Lios OCR core: a shallow embedding of
`lios/ocr/ocr_engine_base.py` (the engine contract, language slots and the
dispatch facade) and `lios/mp_compat.py` (the multiprocessing compatibility
controller), together with theorems settling the specified properties.
-/

set_option linter.all false

/-! ## Python runtime primitives used by the embedded code -/

/-- Python exception values that the embedded code can raise or catch. -/
inductive PyError where
  | runtimeError (msg : String)
  | valueError (msg : String)
  | typeError (msg : String)
deriving DecidableEq, Repr

/-- Is `sub` an initial segment of `l`?  Helper for the substring test the
source performs with Python's `in` operator on strings. -/
def listHasLead : List Char → List Char → Bool
  | [], _ => true
  | _ :: _, [] => false
  | a :: as, b :: bs => a == b && listHasLead as bs

/-- Does `l` contain `sub` as a contiguous run? -/
def listHasSub (sub : List Char) : List Char → Bool
  | [] => listHasLead sub []
  | b :: bs => listHasLead sub (b :: bs) || listHasSub sub bs

/-- Python `sub in s` on strings: `s` contains `sub` as a substring. -/
def strContainsSub (s sub : String) : Bool :=
  listHasSub sub.data s.data

/-! ## mp_compat.py: the multiprocessing compatibility controller -/

/-- `sys.version_info` restricted to `(major, minor, micro)`, exactly what
`get_python_version_info` returns. -/
abbrev Version := Nat × Nat × Nat

/-- The process-wide state the controller reads and mutates:
`MultiprocessingCompatibility._initialized` together with the
`multiprocessing` module's start-method context.  `start_method = none`
models an unset context (`get_start_method(allow_none=True)` returns
`None`); `allowed_methods` models the platform's available start methods
(`fork` is present on POSIX hosts, absent elsewhere). -/
structure MPState where
  initialized : Bool
  start_method : Option String
  allowed_methods : List String
deriving DecidableEq, Repr

/-- `multiprocessing.set_start_method(method, force)`: raises
`RuntimeError("context has already been set")` when the context is already
fixed and `force` is not given; raises `ValueError` when the requested
method does not exist on this platform; otherwise commits the method. -/
def set_start_method (st : MPState) (method : String) (force : Bool) :
    Except PyError MPState :=
  if st.start_method.isSome && !force then
    .error (.runtimeError "context has already been set")
  else if method ∈ st.allowed_methods then
    .ok { st with start_method := some method }
  else
    .error (.valueError ("cannot find context for " ++ method))

/-- `MultiprocessingCompatibility.needs_fork_workaround`:
`major == 3 and minor >= 14 or major > 3`. -/
def needs_fork_workaround (ver : Version) : Bool :=
  decide ((ver.1 = 3 ∧ 14 ≤ ver.2.1) ∨ 3 < ver.1)

/-- `MultiprocessingCompatibility.initialize(force)` (the `verbose` flag only
prints and is omitted).  Returns the updated process state and the boolean
result; a `ValueError` escaping the `except RuntimeError` handler is an
uncaught exception, modelled by the `Except.error` outcome. -/
def mp_init (ver : Version) (st : MPState) (force : Bool) :
    Except PyError (MPState × Bool) :=
  if st.initialized && !force then
    .ok (st, true)
  else if needs_fork_workaround ver then
    if st.start_method ≠ some "fork" then
      match set_start_method st "fork" force with
      | .ok st2 => .ok ({ st2 with initialized := true }, true)
      | .error (PyError.runtimeError msg) =>
        if strContainsSub msg "context has already been set" && !force then
          .ok ({ st with initialized := true }, true)
        else
          .ok (st, false)
      | .error e => .error e
    else
      .ok ({ st with initialized := true }, true)
  else
    .ok ({ st with initialized := true }, true)

/-- The record `MultiprocessingCompatibility.get_status` returns. -/
structure StatusRecord where
  python_version : String
  python_version_tuple : Version
  needs_workaround : Bool
  current_start_method : Option String
  initialized : Bool
  compatible : Bool
deriving DecidableEq, Repr

/-- `MultiprocessingCompatibility.get_status`. -/
def get_status (ver : Version) (st : MPState) : StatusRecord :=
  { python_version :=
      toString ver.1 ++ "." ++ toString ver.2.1 ++ "." ++ toString ver.2.2,
    python_version_tuple := ver,
    needs_workaround := needs_fork_workaround ver,
    current_start_method := st.start_method,
    initialized := st.initialized,
    compatible :=
      if needs_fork_workaround ver then decide (st.start_method = some "fork")
      else true }

/-- One `initialize` call viewed as a state transformer: an uncaught
exception leaves the process state as it was when the exception was raised
(no mutation happens on the uncaught path). -/
def mp_init_step (ver : Version) (force : Bool) (st : MPState) : MPState :=
  match mp_init ver st force with
  | .ok (st2, _) => st2
  | .error _ => st

/-- `n` successive `initialize()` calls without `force`. -/
def mp_initN (ver : Version) : Nat → MPState → MPState
  | 0, st => st
  | n + 1, st => mp_initN ver n (mp_init_step ver false st)

/-- An arbitrary sequence of `initialize` calls, each with its own `force`
flag (`get_status` reads are pure and need not appear). -/
def mp_run_ops (ver : Version) : List Bool → MPState → MPState
  | [], st => st
  | f :: fs, st => mp_run_ops ver fs (mp_init_step ver f st)

/-! ## ocr_engine_base.py: the engine contract and dispatch facade -/

/-- A value held by one of the three language slots.  `absent` is a Python
attribute that was never assigned, `pyNone` is `None` (the constructor's
default), `pyFalse` is the explicit `False` sentinel the failure paths of
slots 2/3 store, and `lang s` is a selected language identifier. -/
inductive SlotVal where
  | absent
  | pyNone
  | pyFalse
  | lang (s : String)
deriving DecidableEq, Repr

/-- The class-level (static) part of a concrete engine: the abstract static
methods `get_available_languages`, `support_multiple_languages`,
`is_available`, and the abstract instance method `ocr_image_to_text`, which
each backend supplies. -/
structure OcrEngineClass where
  get_available_languages : List String
  support_multiple_languages : Bool
  is_available : Bool
  ocr_image_to_text : String → String

/-- An `OcrEngineBase` instance: its class plus the three language slots.
Only `language` is assigned by `__init__`; `language_2`/`language_3` do not
exist until first assigned. -/
structure OcrEngineBase where
  cls : OcrEngineClass
  language : SlotVal
  language_2 : SlotVal
  language_3 : SlotVal

/-- `OcrEngineBase.__init__(self, language=None)`: stores the argument in
`self.language` unvalidated. -/
def mk_engine (cls : OcrEngineClass) (language : Option String) :
    OcrEngineBase :=
  { cls := cls,
    language := match language with
      | none => .pyNone
      | some s => .lang s,
    language_2 := .absent,
    language_3 := .absent }

/-- `OcrEngineBase.set_language`: occupies slot 1 on success, returns the
prior state untouched on failure. -/
def set_language (self : OcrEngineBase) (language : String) :
    OcrEngineBase × Bool :=
  if language ∈ self.cls.get_available_languages then
    ({ self with language := .lang language }, true)
  else
    (self, false)

/-- `OcrEngineBase.set_language_2`: occupies slot 2 on success, stores the
explicit `False` sentinel on failure. -/
def set_language_2 (self : OcrEngineBase) (language : String) :
    OcrEngineBase × Bool :=
  if language ∈ self.cls.get_available_languages then
    ({ self with language_2 := .lang language }, true)
  else
    ({ self with language_2 := .pyFalse }, false)

/-- `OcrEngineBase.set_language_3`: same shape as slot 2. -/
def set_language_3 (self : OcrEngineBase) (language : String) :
    OcrEngineBase × Bool :=
  if language ∈ self.cls.get_available_languages then
    ({ self with language_3 := .lang language }, true)
  else
    ({ self with language_3 := .pyFalse }, false)

/-- `OcrEngineBase.ocr_image_to_text`: dispatch to the backend's abstract
implementation. -/
def ocr_image_to_text (self : OcrEngineBase) (image_file_name : String) :
    String :=
  self.cls.ocr_image_to_text image_file_name

/-- Whether a recognition request ran inline on the caller's stack or was
handed to an isolated worker process. -/
inductive DispatchKind where
  | direct
  | isolated
deriving DecidableEq, Repr

/-- `OcrEngineBase.ocr_image_to_text_with_multiprocessing`: the body is a
direct call of `self.ocr_image_to_text` (the comment in the source:
"Call directly instead of multiprocessing to avoid pickling issues"), so
the dispatch kind is always `direct`. -/
def ocr_image_to_text_with_multiprocessing (self : OcrEngineBase)
    (image_file_name : String) : DispatchKind × String :=
  (DispatchKind.direct, ocr_image_to_text self image_file_name)

/-- Number of formal parameters of `OcrEngineBase.cancel` as written in the
source: `def cancel(): pass` declares none — not even `self`. -/
def cancel_param_count : Nat := 0

/-- A Python bound-method call `instance.cancel()` passes the instance as
one implicit positional argument. -/
def bound_call_arg_count : Nat := 1

/-- Calling `cancel()` on an instance: Python raises `TypeError` when the
argument count does not match the parameter count. -/
def cancel_call (_self : OcrEngineBase) : Except PyError Unit :=
  if bound_call_arg_count = cancel_param_count then
    .ok ()
  else
    .error (.typeError
      "OcrEngineBase.cancel() takes 0 positional arguments but 1 was given")

/-- A slot-selection call on an engine instance. -/
inductive EngineOp where
  | selectL (l : String)
  | selectL2 (l : String)
  | selectL3 (l : String)

/-- Apply one slot-selection call, keeping the resulting instance. -/
def apply_engine_op (e : OcrEngineBase) : EngineOp → OcrEngineBase
  | .selectL l => (set_language e l).1
  | .selectL2 l => (set_language_2 e l).1
  | .selectL3 l => (set_language_3 e l).1

/-- Run a sequence of slot-selection calls. -/
def run_engine_ops (e : OcrEngineBase) : List EngineOp → OcrEngineBase
  | [] => e
  | op :: ops => run_engine_ops (apply_engine_op e op) ops

/-- A slot value respects the supported-language set: whenever it holds a
language, that language is a member of `langs`. -/
def slot_in_set (langs : List String) : SlotVal → Bool
  | .lang s => decide (s ∈ langs)
  | _ => true

/-! ## Concrete sample data for witnesses and counterexamples -/

/-- A concrete engine class supporting exactly `eng` and `hin`. -/
def sampleClass : OcrEngineClass :=
  { get_available_languages := ["eng", "hin"],
    support_multiple_languages := true,
    is_available := true,
    ocr_image_to_text := fun s => s }

/-- A concrete engine instance constructed with no initial language. -/
def sampleEngine : OcrEngineBase :=
  mk_engine sampleClass none

/-- A POSIX process state whose start method is already fixed to `spawn`. -/
def spawnState : MPState :=
  { initialized := false,
    start_method := some "spawn",
    allowed_methods := ["fork", "spawn", "forkserver"] }

/-- A fresh POSIX process state: nothing initialized, no method chosen. -/
def freshState : MPState :=
  { initialized := false,
    start_method := none,
    allowed_methods := ["fork", "spawn", "forkserver"] }

/-- An initialized state on a platform without `fork`, where a forced
re-initialization fails with an uncaught `ValueError`. -/
def doneState : MPState :=
  { initialized := true,
    start_method := some "spawn",
    allowed_methods := ["spawn"] }

/-! ## Language-slot claims -/

/-- C1: `set_language(L)` returns true iff `L` is a member of the class's
`get_available_languages()`, and on success the primary slot holds exactly
`L` (on failure it is untouched). -/
theorem C1_set_language_correct (e : OcrEngineBase) (l : String) :
    ((set_language e l).2 = true ↔ l ∈ e.cls.get_available_languages) ∧
    (set_language e l).1.language =
      (if l ∈ e.cls.get_available_languages then SlotVal.lang l
       else e.language) := by
  unfold set_language
  by_cases h : l ∈ e.cls.get_available_languages <;> simp [h]

/-- C7: an unsupported primary selection returns false and leaves the whole
instance — every field — exactly as it was. -/
theorem C7_set_language_frame (e : OcrEngineBase) (l : String)
    (h : l ∉ e.cls.get_available_languages) :
    set_language e l = (e, false) := by
  unfold set_language
  simp [h]

/-- Witness for C7 at a concrete engine and language. -/
theorem C7_set_language_frame_witness :
    "xx" ∉ sampleEngine.cls.get_available_languages ∧
    set_language sampleEngine "xx" = (sampleEngine, false) :=
  ⟨by decide, C7_set_language_frame sampleEngine "xx" (by decide)⟩

/-- C6: an unsupported selection on slot 2 returns false and stores the
explicit `False` sentinel there (clobbering any previous value), and slot 3
behaves the same way; all other fields are untouched. -/
theorem C6_aux_slots_false_sentinel (e : OcrEngineBase) (l : String)
    (h : l ∉ e.cls.get_available_languages) :
    set_language_2 e l = ({ e with language_2 := .pyFalse }, false) ∧
    set_language_3 e l = ({ e with language_3 := .pyFalse }, false) := by
  unfold set_language_2 set_language_3
  simp [h]

/-- Witness for C6: the slot held a previously selected language and is
reset to the sentinel. -/
theorem C6_aux_slots_false_sentinel_witness :
    "xx" ∉ ((set_language_2 sampleEngine "hin").1).cls.get_available_languages ∧
    (set_language_2 (set_language_2 sampleEngine "hin").1 "xx" =
       ({ (set_language_2 sampleEngine "hin").1 with language_2 := .pyFalse },
        false) ∧
     set_language_3 (set_language_2 sampleEngine "hin").1 "xx" =
       ({ (set_language_2 sampleEngine "hin").1 with language_3 := .pyFalse },
        false)) :=
  ⟨by decide,
   C6_aux_slots_false_sentinel (set_language_2 sampleEngine "hin").1 "xx"
     (by decide)⟩

/-- C9: `cancel` is declared without a `self` parameter, so every instance
invocation `e.cancel()` raises `TypeError` instead of succeeding — the code
contradicts the contract that the call never fails. -/
theorem C9_cancel_raises (e : OcrEngineBase) :
    cancel_call e = .error (.typeError
      "OcrEngineBase.cancel() takes 0 positional arguments but 1 was given") :=
  rfl

/-- C5: the parallel entry point always runs recognition inline: its result
is exactly `ocr_image_to_text` on the same path and the dispatch kind is
`direct`, in particular whenever `get_status` reports `compatible = false`. -/
theorem C5_inline_when_incompatible (ver : Version) (st : MPState)
    (e : OcrEngineBase) (p : String)
    (h : (get_status ver st).compatible = false) :
    ocr_image_to_text_with_multiprocessing e p =
      (DispatchKind.direct, ocr_image_to_text e p) :=
  rfl

/-- Witness for C5: Python 3.14 with the start method committed to `spawn`
is reported incompatible, and dispatch is inline. -/
theorem C5_inline_when_incompatible_witness :
    (get_status (3, 14, 0) spawnState).compatible = false ∧
    ocr_image_to_text_with_multiprocessing sampleEngine "page.png" =
      (DispatchKind.direct, ocr_image_to_text sampleEngine "page.png") :=
  ⟨by decide,
   C5_inline_when_incompatible (3, 14, 0) spawnState sampleEngine "page.png"
     (by decide)⟩

/-! ## Controller lemmas -/

/-- Evaluation of the substring test on the caught error message. -/
theorem strContainsSub_ctx :
    strContainsSub "context has already been set"
      "context has already been set" = true := by
  decide

/-- Replacing `initialized` by `true` on an already-initialized state is the
identity. -/
theorem set_initialized_self (st : MPState) (h : st.initialized = true) :
    ({ st with initialized := true } : MPState) = st := by
  cases st
  simp_all

/-- Closed form of `initialize` without `force`: a no-op success when done,
otherwise success marking the state initialized, mutating the start method
only when the version is broken and the method was unset; the sole escaping
exception is the platform missing the `fork` method. -/
theorem mp_init_nofork_char (ver : Version) (st : MPState) :
    mp_init ver st false =
      (if st.initialized = true then .ok (st, true)
       else if needs_fork_workaround ver = true then
         (if st.start_method = none then
           (if "fork" ∈ st.allowed_methods then
             .ok ({ st with start_method := some "fork",
                            initialized := true }, true)
           else .error (.valueError ("cannot find context for " ++ "fork")))
         else .ok ({ st with initialized := true }, true))
       else .ok ({ st with initialized := true }, true)) := by
  by_cases hi : st.initialized = true
  · simp [mp_init, hi]
  · by_cases hn : needs_fork_workaround ver = true
    · cases hsm : st.start_method with
      | none =>
        by_cases hf : "fork" ∈ st.allowed_methods <;>
          simp [mp_init, set_start_method, hi, hn, hsm, hf]
      | some m =>
        by_cases hm : m = "fork"
        · subst hm
          simp [mp_init, set_start_method, hi, hn, hsm]
        · simp [mp_init, set_start_method, hi, hn, hsm, hm,
            strContainsSub_ctx]
    · simp [mp_init, hi, hn]

/-- A non-forced call on an initialized state is a no-op success. -/
theorem mp_init_done (ver : Version) (st : MPState)
    (h : st.initialized = true) :
    mp_init ver st false = .ok (st, true) := by
  rw [mp_init_nofork_char]
  simp [h]

/-- Every non-forced call that returns leaves the state initialized. -/
theorem mp_init_ok_initialized (ver : Version) (st st2 : MPState) (b : Bool)
    (h : mp_init ver st false = .ok (st2, b)) :
    st2.initialized = true := by
  rw [mp_init_nofork_char] at h
  split at h
  · rename_i hi
    cases h
    exact hi
  · split at h
    · split at h
      · split at h
        · cases h
          rfl
        · cases h
      · cases h
        rfl
    · cases h
      rfl

/-- Closed form of `initialize(force=True)`: always re-derives; the only
failure is an uncaught `ValueError` when the platform lacks `fork`. -/
theorem mp_init_force_char (ver : Version) (st : MPState) :
    mp_init ver st true =
      (if needs_fork_workaround ver = true then
        (if st.start_method = some "fork" then
          .ok ({ st with initialized := true }, true)
        else if "fork" ∈ st.allowed_methods then
          .ok ({ st with start_method := some "fork",
                         initialized := true }, true)
        else .error (.valueError ("cannot find context for " ++ "fork")))
      else .ok ({ st with initialized := true }, true)) := by
  by_cases hn : needs_fork_workaround ver = true
  · by_cases hsm : st.start_method = some "fork"
    · simp [mp_init, hn, hsm]
    · by_cases hf : "fork" ∈ st.allowed_methods <;>
        simp [mp_init, set_start_method, hn, hsm, hf]
  · simp [mp_init, hn]

/-- A single `initialize` call, forced or not, never clears the
`initialized` flag. -/
theorem mp_init_step_mono (ver : Version) (f : Bool) (st : MPState)
    (h : st.initialized = true) :
    (mp_init_step ver f st).initialized = true := by
  unfold mp_init_step
  cases f with
  | false =>
    rw [mp_init_done ver st h]
    exact h
  | true =>
    rw [mp_init_force_char]
    by_cases hn : needs_fork_workaround ver = true
    · by_cases hsm : st.start_method = some "fork"
      · simp [hn, hsm]
      · by_cases hf : "fork" ∈ st.allowed_methods <;>
          simp [hn, hsm, hf, h]
    · simp [hn]

/-- When the call raises, the state transformer is the identity. -/
theorem mp_init_step_of_error (ver : Version) (f : Bool) (st : MPState)
    (e : PyError) (h : mp_init ver st f = .error e) :
    mp_init_step ver f st = st := by
  unfold mp_init_step
  rw [h]

/-- Applying a non-forced `initialize` twice equals applying it once. -/
theorem mp_init_step_idem (ver : Version) (st : MPState) :
    mp_init_step ver false (mp_init_step ver false st) =
      mp_init_step ver false st := by
  cases h : mp_init ver st false with
  | ok p =>
    have hstep : mp_init_step ver false st = p.1 := by
      unfold mp_init_step
      rw [h]
    have h2 : p.1.initialized = true :=
      mp_init_ok_initialized ver st p.1 p.2 (by rw [h])
    rw [hstep]
    unfold mp_init_step
    rw [mp_init_done ver p.1 h2]
  | error e =>
    rw [mp_init_step_of_error ver false st e h,
      mp_init_step_of_error ver false st e h]

/-- Further non-forced calls after the first one change nothing. -/
theorem mp_initN_absorb (ver : Version) (n : Nat) (st : MPState) :
    mp_initN ver n (mp_init_step ver false st) =
      mp_init_step ver false st := by
  induction n generalizing st with
  | zero => rfl
  | succ k ih =>
    show mp_initN ver k
        (mp_init_step ver false (mp_init_step ver false st)) = _
    rw [mp_init_step_idem]
    exact ih st

/-! ## Controller claims -/

/-- C2: `initialize()` is idempotent without `force`: `n ≥ 1` calls yield
the same `get_status` as one call, and on an initialized state a non-forced
call returns true and performs no state change at all. -/
theorem C2_init_idempotent (ver : Version) (st : MPState) (n : Nat)
    (h : 1 ≤ n) :
    get_status ver (mp_initN ver n st) =
      get_status ver (mp_initN ver 1 st) ∧
    mp_init ver { st with initialized := true } false =
      .ok ({ st with initialized := true }, true) := by
  constructor
  · obtain ⟨k, rfl⟩ : ∃ k, n = k + 1 :=
      ⟨n - 1, (Nat.succ_pred_eq_of_pos h).symm⟩
    show get_status ver (mp_initN ver k (mp_init_step ver false st)) = _
    rw [mp_initN_absorb]
    rfl
  · exact mp_init_done ver { st with initialized := true } rfl

/-- Witness for C2 at Python 3.14 on a fresh POSIX state, three calls. -/
theorem C2_init_idempotent_witness :
    1 ≤ 3 ∧
    (get_status (3, 14, 0) (mp_initN (3, 14, 0) 3 freshState) =
       get_status (3, 14, 0) (mp_initN (3, 14, 0) 1 freshState) ∧
     mp_init (3, 14, 0) { freshState with initialized := true } false =
       .ok ({ freshState with initialized := true }, true)) :=
  ⟨by decide, C2_init_idempotent (3, 14, 0) freshState 3 (by decide)⟩

/-- C3: on Python 3.14.0 with the start method already committed to a
non-fork variant, a non-forced `initialize` returns true without raising,
marks the state initialized, and `get_status` then reports
`compatible = false` (the workaround is needed and `fork` is not active). -/
theorem C3_committed_nonfork (st : MPState) (m : String)
    (h1 : st.start_method = some m) (h2 : m ≠ "fork") :
    mp_init (3, 14, 0) st false =
      .ok ({ st with initialized := true }, true) ∧
    ({ st with initialized := true } : MPState).initialized = true ∧
    needs_fork_workaround (3, 14, 0) = true ∧
    (get_status (3, 14, 0) { st with initialized := true }).compatible =
      false := by
  refine ⟨?_, rfl, by decide, ?_⟩
  · rw [mp_init_nofork_char]
    by_cases hi : st.initialized = true
    · simp [hi, set_initialized_self st hi]
    · simp [hi, h1]
  · simp [get_status, needs_fork_workaround, h1, h2]

/-- Witness for C3: the `spawn`-committed state. -/
theorem C3_committed_nonfork_witness :
    spawnState.start_method = some "spawn" ∧ "spawn" ≠ "fork" ∧
    (mp_init (3, 14, 0) spawnState false =
       .ok ({ spawnState with initialized := true }, true) ∧
     ({ spawnState with initialized := true } : MPState).initialized = true ∧
     needs_fork_workaround (3, 14, 0) = true ∧
     (get_status (3, 14, 0)
        { spawnState with initialized := true }).compatible = false) :=
  ⟨rfl, by decide, C3_committed_nonfork spawnState "spawn" rfl (by decide)⟩

/-- C4: `needs_fork_workaround` holds exactly for versions at or above 3.14
(any major above 3 included); on 3.13.0 a non-forced `initialize` succeeds,
mutates no start method, and status reports no workaround and
`compatible = true`. -/
theorem C4_needs_workaround_characterization :
    (∀ a b c : Nat,
        needs_fork_workaround (a, b, c) = true ↔ ((a = 3 ∧ 14 ≤ b) ∨ 3 < a)) ∧
    (∀ st : MPState,
        needs_fork_workaround (3, 13, 0) = false ∧
        mp_init (3, 13, 0) st false =
          .ok ({ st with initialized := true }, true) ∧
        ({ st with initialized := true } : MPState).start_method =
          st.start_method ∧
        (get_status (3, 13, 0)
          { st with initialized := true }).needs_workaround = false ∧
        (get_status (3, 13, 0)
          { st with initialized := true }).compatible = true) := by
  constructor
  · intro a b c
    simp [needs_fork_workaround]
  · intro st
    have hn : needs_fork_workaround (3, 13, 0) = false := by decide
    refine ⟨hn, ?_, rfl, by simp [get_status, hn], by simp [get_status, hn]⟩
    rw [mp_init_nofork_char]
    by_cases hi : st.initialized = true
    · simp [hi, set_initialized_self st hi]
    · simp [hi, hn]

/-- C10: the `initialized` flag is monotone: once true, no later sequence
of `initialize` calls — forced, failing or not — resets it, and every later
`get_status` reports `initialized = true`. -/
theorem C10_initialized_monotone (ver : Version) (ops : List Bool)
    (st : MPState) (h : st.initialized = true) :
    (mp_run_ops ver ops st).initialized = true ∧
    (get_status ver (mp_run_ops ver ops st)).initialized = true := by
  suffices hs : (mp_run_ops ver ops st).initialized = true from ⟨hs, hs⟩
  induction ops generalizing st with
  | nil => exact h
  | cons f fs ih =>
    exact ih (mp_init_step ver f st) (mp_init_step_mono ver f st h)

/-- Witness for C10: an initialized fork-less state survives a forced,
failing call and a plain call with the flag intact. -/
theorem C10_initialized_monotone_witness :
    doneState.initialized = true ∧
    ((mp_run_ops (3, 14, 0) [true, false] doneState).initialized = true ∧
     (get_status (3, 14, 0)
        (mp_run_ops (3, 14, 0) [true, false] doneState)).initialized =
       true) :=
  ⟨rfl, C10_initialized_monotone (3, 14, 0) [true, false] doneState rfl⟩

/-! ## Slot-invariant claims -/

/-- C8 counterexample: the invariant fails as stated.  Construction stores
the unvalidated argument `zz` in slot 1 although `zz` is not supported, and
an invalid primary selection after a successful one leaves the stale
previous language `eng` in slot 1 rather than any explicit unset/false
state. -/
theorem C8_slot_invariant_counterexample :
    (mk_engine sampleClass (some "zz")).language = .lang "zz" ∧
    "zz" ∉ sampleClass.get_available_languages ∧
    "xx" ∉ sampleClass.get_available_languages ∧
    (run_engine_ops sampleEngine
        [.selectL "eng", .selectL "xx"]).language = .lang "eng" ∧
    SlotVal.lang "eng" ≠ SlotVal.absent ∧
    SlotVal.lang "eng" ≠ SlotVal.pyFalse ∧
    SlotVal.lang "eng" ≠ SlotVal.pyNone :=
  ⟨rfl, by decide, by decide, rfl, by decide, by decide, by decide⟩

/-- `slot_in_set` on a held language is the membership test. -/
theorem slot_in_set_lang (langs : List String) (s : String) :
    slot_in_set langs (.lang s) = decide (s ∈ langs) :=
  rfl

/-- `slot_in_set` accepts the `False` sentinel. -/
theorem slot_in_set_pyFalse (langs : List String) :
    slot_in_set langs .pyFalse = true :=
  rfl

/-- One selection call preserves slot discipline: the class is untouched,
slots 2/3 keep respecting the supported set, and slot 1 either respects it
or still holds the fixed value `x`. -/
theorem apply_engine_op_inv (x : SlotVal) (e : OcrEngineBase) (op : EngineOp)
    (h2 : slot_in_set e.cls.get_available_languages e.language_2 = true)
    (h3 : slot_in_set e.cls.get_available_languages e.language_3 = true)
    (h1 : slot_in_set e.cls.get_available_languages e.language = true ∨
      e.language = x) :
    (apply_engine_op e op).cls = e.cls ∧
    slot_in_set e.cls.get_available_languages
      (apply_engine_op e op).language_2 = true ∧
    slot_in_set e.cls.get_available_languages
      (apply_engine_op e op).language_3 = true ∧
    (slot_in_set e.cls.get_available_languages
       (apply_engine_op e op).language = true ∨
     (apply_engine_op e op).language = x) := by
  cases op with
  | selectL l =>
    by_cases hm : l ∈ e.cls.get_available_languages <;>
      simp [apply_engine_op, set_language, hm, slot_in_set_lang,
        slot_in_set_pyFalse, h2, h3, h1]
  | selectL2 l =>
    by_cases hm : l ∈ e.cls.get_available_languages <;>
      simp [apply_engine_op, set_language_2, hm, slot_in_set_lang,
        slot_in_set_pyFalse, h2, h3, h1]
  | selectL3 l =>
    by_cases hm : l ∈ e.cls.get_available_languages <;>
      simp [apply_engine_op, set_language_3, hm, slot_in_set_lang,
        slot_in_set_pyFalse, h2, h3, h1]

/-- Slot discipline over whole call sequences, by induction. -/
theorem run_engine_ops_inv (x : SlotVal) (ops : List EngineOp)
    (e : OcrEngineBase)
    (h2 : slot_in_set e.cls.get_available_languages e.language_2 = true)
    (h3 : slot_in_set e.cls.get_available_languages e.language_3 = true)
    (h1 : slot_in_set e.cls.get_available_languages e.language = true ∨
      e.language = x) :
    (run_engine_ops e ops).cls = e.cls ∧
    slot_in_set e.cls.get_available_languages
      (run_engine_ops e ops).language_2 = true ∧
    slot_in_set e.cls.get_available_languages
      (run_engine_ops e ops).language_3 = true ∧
    (slot_in_set e.cls.get_available_languages
       (run_engine_ops e ops).language = true ∨
     (run_engine_ops e ops).language = x) := by
  induction ops generalizing e with
  | nil => exact ⟨rfl, h2, h3, h1⟩
  | cons op ops ih =>
    obtain ⟨hc, g2, g3, g1⟩ := apply_engine_op_inv x e op h2 h3 h1
    have g2' : slot_in_set
        (apply_engine_op e op).cls.get_available_languages
        (apply_engine_op e op).language_2 = true := by rw [hc]; exact g2
    have g3' : slot_in_set
        (apply_engine_op e op).cls.get_available_languages
        (apply_engine_op e op).language_3 = true := by rw [hc]; exact g3
    have g1' : slot_in_set
        (apply_engine_op e op).cls.get_available_languages
        (apply_engine_op e op).language = true ∨
        (apply_engine_op e op).language = x := by rw [hc]; exact g1
    obtain ⟨kc, k2, k3, k1⟩ := ih (apply_engine_op e op) g2' g3' g1'
    rw [hc] at kc k2 k3 k1
    exact ⟨kc, k2, k3, k1⟩

/-- C8 amended: after any sequence of slot-selection calls, slots 2 and 3
hold only a supported language, the never-assigned marker, or the explicit
`False` sentinel — never a stale unsupported value — while slot 1 holds
either a supported language or exactly the value established at
construction (the unvalidated constructor argument, or `None`): an invalid
primary selection leaves the previous value in place rather than an
unset/false state. -/
theorem C8_slot_invariant_amended (cls : OcrEngineClass)
    (init_lang : Option String) (ops : List EngineOp) :
    slot_in_set cls.get_available_languages
      (run_engine_ops (mk_engine cls init_lang) ops).language_2 = true ∧
    slot_in_set cls.get_available_languages
      (run_engine_ops (mk_engine cls init_lang) ops).language_3 = true ∧
    (slot_in_set cls.get_available_languages
       (run_engine_ops (mk_engine cls init_lang) ops).language = true ∨
     (run_engine_ops (mk_engine cls init_lang) ops).language =
       (mk_engine cls init_lang).language) :=
  (run_engine_ops_inv (mk_engine cls init_lang).language ops
    (mk_engine cls init_lang) rfl rfl (Or.inr rfl)).2
